import Mathlib

/-!
Shallow embedding of the melonJS batched-rendering core's texture-atlas and
shader modules (`src/video/texture/atlas.js`, `src/video/webgl/glshader.js`),
together with proofs of the spec's claims about them.

Modelling conventions:
* JavaScript numbers are modelled as `ℚ` where divisions occur (UV
  computation) and as `ℤ` for the integral pixel quantities of the
  fixed-grid spritesheet path (DOM image sizes and cell sizes are integers);
  `~~x` on integers is `Int.tdiv` / `Int.tmod` (truncation toward zero,
  exactly JS semantics on integral values).
* JavaScript plain objects and insertion-ordered `Map`s are both modelled as
  association lists where setting an existing key overwrites it in place and
  setting a fresh key appends (exactly the JS enumeration-order semantics).
* In-place mutation of a shared region object is modelled by storing equal
  copies under every key that aliases the object; the claims only inspect
  lookups and returned values, for which this is equivalent.
* Thrown exceptions are modelled with `Except`; `console.warn` is modelled
  as a boolean field of the parse result.
-/

namespace MelonJS

/-- models a JavaScript object/`Map` property write: overwrite an existing
key in place, otherwise append (JS insertion-order semantics). -/
def jsSet {α : Type} : List (String × α) → String → α → List (String × α)
  | [], k, v => [(k, v)]
  | (k0, v0) :: rest, k, v =>
      if k0 = k then (k, v) :: rest else (k0, v0) :: jsSet rest k v

/-- models a JavaScript object/`Map` property read (`undefined` is `none`). -/
def jsGet {α : Type} : List (String × α) → String → Option α
  | [], _ => none
  | (k0, v0) :: rest, k => if k0 = k then some v0 else jsGet rest k

/-- does the character list start with the given pattern
(helper for `String.prototype.includes`). -/
def listStartsWith : List Char → List Char → Bool
  | [], _ => true
  | _ :: _, [] => false
  | p :: ps, c :: cs => (p = c) && listStartsWith ps cs

/-- does the character list contain the given pattern as a contiguous run
(helper for `String.prototype.includes`). -/
def listHasInfix (pat : List Char) : List Char → Bool
  | [] => listStartsWith pat []
  | c :: cs => listStartsWith pat (c :: cs) || listHasInfix pat cs

/-- models JavaScript `s.includes(pat)`. -/
def strContains (s pat : String) : Bool :=
  listHasInfix pat.toList s.toList

/-- helper for `String.prototype.split(",")`: accumulate the current field
(in reverse) while walking the characters. -/
def splitCommaAux : List Char → List Char → List String
  | acc, [] => [String.mk acc.reverse]
  | acc, c :: cs =>
      if c = ',' then String.mk acc.reverse :: splitCommaAux [] cs
      else splitCommaAux (c :: acc) cs

/-- models JavaScript `name.split(",")`. -/
def splitOnComma (s : String) : List String :=
  splitCommaAux [] s.toList

/-- decimal digit value of a character, `none` for non-digits. -/
def digitVal (c : Char) : Option ℕ :=
  if '0' ≤ c ∧ c ≤ '9' then some (c.toNat - '0'.toNat) else none

/-- reads a run of decimal digits into an accumulator. -/
def parseNatAux : List Char → ℕ → Option ℕ
  | [], acc => some acc
  | c :: cs, acc =>
      match digitVal c with
      | some d => parseNatAux cs (acc * 10 + d)
      | none => none

/-- models the JavaScript unary `+` coercion (`+keys[i]` in `getUVs`) for the
nonnegative decimal-integer strings the raw-coordinate key path actually
receives; strings on which JS would produce `NaN` or a non-integral number
are mapped to `none` (that path is never exercised by the atlas callers). -/
def jsUnaryPlus (s : String) : Option ℤ :=
  match s.toList with
  | [] => none
  | c :: cs => (parseNatAux (c :: cs) 0).map Int.ofNat

/-- models JavaScript number-to-string coercion for the values interpolated
into the synthetic region key; exact for integral values, which are the only
ones the atlas code produces in that position. -/
def qToKeyStr (q : ℚ) : String :=
  if q.den = 1 then toString q.num else toString q

/-- the `angle` a packer frame is stored with: `0`, or `-ETA` (`-π/2` in the
source's `math.js`) for `rotated` frames. `π/2` is irrational, so the two
possible values are modelled as a two-element type; no claim depends on the
numeric magnitude. -/
inductive RegionAngle : Type
  | zero
  | negEta
deriving Repr, DecidableEq

/-- an atlas region as built by `parse` / `parseFromSpriteSheet` /
`addRegion`. Fields absent on the JS object (e.g. `texture` for ad-hoc
regions from `addRegion`) are `none` / `false`. -/
structure Region : Type where
  name : String
  texture : Option String
  offsetX : ℚ
  offsetY : ℚ
  width : ℚ
  height : ℚ
  anchorPoint : Option (ℚ × ℚ)
  trimmed : Bool
  angle : RegionAngle
  uvs : Option (ℚ × ℚ × ℚ × ℚ)
deriving Repr, DecidableEq

/-- one sub-atlas dictionary (region name, or synthetic raw key, to region). -/
abbrev AtlasTable := List (String × Region)

/-- result of `TextureAtlas.addUVs` (updated dictionary plus the returned
`atlas[name].uvs`). -/
structure AddUVsResult : Type where
  table : AtlasTable
  uvs : Option (ℚ × ℚ × ℚ × ℚ)
deriving Repr, DecidableEq

/-- the synthetic cache key built by `addUVs`:
`let key = s.x + "," + s.y + "," + w + "," + h` — note `w`/`h` are the
function's sheet-dimension parameters, not the region's size. -/
def regionKey (r : Region) (w h : ℚ) : String :=
  qToKeyStr r.offsetX ++ "," ++ qToKeyStr r.offsetY ++ "," ++
    qToKeyStr w ++ "," ++ qToKeyStr h

/-- the normalized UV rectangle `addUVs` computes for a region against
sheet dimensions `w × h`:
`[s.x / w, s.y / h, (s.x + sw) / w, (s.y + sh) / h]`. -/
def regionUV (r : Region) (w h : ℚ) : ℚ × ℚ × ℚ × ℚ :=
  (r.offsetX / w, r.offsetY / h,
   (r.offsetX + r.width) / w, (r.offsetY + r.height) / h)

/-- models `TextureAtlas.addUVs(atlas, name, w, h)`: with a WebGL context,
derive the normalized UV rectangle from the region's pixel offset/size and
the sheet dimensions, store it on the region, and also index the region
under the synthetic raw-coordinate key; with the Canvas renderer, do
nothing and return the (undefined) cached `uvs`. A missing `name` (on which
JS would throw) is returned unchanged — every caller in the source inserts
`atlas[name]` immediately before calling. -/
def addUVs (glDefined : Bool) (atlas : AtlasTable) (name : String) (w h : ℚ) :
    AddUVsResult :=
  if glDefined then
    match jsGet atlas name with
    | some r =>
        let r1 : Region := { r with uvs := some (regionUV r w h) }
        ⟨jsSet (jsSet atlas name r1) (regionKey r w h) r1,
          some (regionUV r w h)⟩
    | none => ⟨atlas, none⟩
  else
    ⟨atlas, (jsGet atlas name).bind Region.uvs⟩

/-- the `frame.frame` source rectangle of a packer-format frame entry. -/
structure FrameRect : Type where
  x : ℚ
  y : ℚ
  w : ℚ
  h : ℚ
deriving Repr, DecidableEq

/-- one entry of a packer-format `frames` list; `filename` is `none` when
the JS object lacks the property (`hasOwnProperty("filename")` is false,
e.g. the trailing dummy object of a ShoeBox export). -/
structure FrameDesc : Type where
  filename : Option String
  frame : FrameRect
  rotated : Bool
  trimmed : Bool
  sourceSize : Option (ℚ × ℚ)
  spriteSourceSize : Option (ℚ × ℚ)
  pivot : Option (ℚ × ℚ)
deriving Repr, DecidableEq

/-- the `meta` object of a packer-format descriptor. -/
structure PackerMeta : Type where
  app : String
  image : Option String
  sizeW : ℚ
  sizeH : ℚ
  exporter : Option String
  repeatMode : Option String
deriving Repr, DecidableEq

/-- a packer-format atlas descriptor (`meta` plus `frames`). -/
structure PackerData : Type where
  meta : PackerMeta
  frames : List FrameDesc
deriving Repr, DecidableEq

/-- one iteration of the `data.frames.forEach` loop of `TextureAtlas.parse`:
entries without a `filename` property are skipped, the rest are turned into
a region and `addUVs` is invoked immediately. -/
def parseStep (glDefined : Bool) (meta : PackerMeta) (atlas : AtlasTable)
    (f : FrameDesc) : AtlasTable :=
  match f.filename with
  | none => atlas
  | some fname =>
      let s := f.frame
      let hasTextureAnchorPoint :=
        f.spriteSourceSize.isSome && f.sourceSize.isSome && f.pivot.isSome
      let originX : ℚ :=
        (f.sourceSize.getD (0, 0)).1 * (f.pivot.getD (0, 0)).1 -
          (if f.trimmed then (f.spriteSourceSize.getD (0, 0)).1 else 0)
      let originY : ℚ :=
        (f.sourceSize.getD (0, 0)).2 * (f.pivot.getD (0, 0)).2 -
          (if f.trimmed then (f.spriteSourceSize.getD (0, 0)).2 else 0)
      let r : Region :=
        { name := fname
          texture := some (meta.image.getD "default")
          offsetX := s.x
          offsetY := s.y
          width := s.w
          height := s.h
          anchorPoint :=
            if hasTextureAnchorPoint then some (originX / s.w, originY / s.h)
            else none
          trimmed := f.trimmed
          angle := if f.rotated then RegionAngle.negEta else RegionAngle.zero
          uvs := none }
      (addUVs glDefined (jsSet atlas fname r) fname meta.sizeW meta.sizeH).table

/-- models `TextureAtlas.parse(data)` (packer-format descriptors). -/
def parse (glDefined : Bool) (data : PackerData) : AtlasTable :=
  data.frames.foldl (parseStep glDefined data.meta) []

/-- an `HTMLImageElement`/`HTMLCanvasElement` source: integral pixel
dimensions plus the `src` URL used in the truncation warning. -/
structure ImageSource : Type where
  width : ℤ
  height : ℤ
  src : String
deriving Repr, DecidableEq

/-- a fixed-grid spritesheet descriptor as seen by `parseFromSpriteSheet`
(after the constructor resolved `data.image` and after the `|| 0`
defaulting of `spacing` and `margin`). -/
structure SpriteSheetData : Type where
  image : ImageSource
  framewidth : ℤ
  frameheight : ℤ
  spacing : ℤ
  margin : ℤ
  anchorPoint : Option (ℚ × ℚ)
deriving Repr, DecidableEq

/-- the horizontal cell stride `data.framewidth + spacing`. -/
def cellStrideW (d : SpriteSheetData) : ℤ := d.framewidth + d.spacing

/-- the vertical cell stride `data.frameheight + spacing`. -/
def cellStrideH (d : SpriteSheetData) : ℤ := d.frameheight + d.spacing

/-- `~~((width - margin + spacing) / (data.framewidth + spacing))` —
the per-row sprite count. -/
def spriteCountX (d : SpriteSheetData) : ℤ :=
  Int.tdiv (d.image.width - d.margin + d.spacing) (cellStrideW d)

/-- `~~((height - margin + spacing) / (data.frameheight + spacing))` —
the per-column sprite count. -/
def spriteCountY (d : SpriteSheetData) : ℤ :=
  Int.tdiv (d.image.height - d.margin + d.spacing) (cellStrideH d)

/-- the "verifying the texture size" block of `parseFromSpriteSheet`:
effective width, effective height, and whether the truncation warning was
logged. The size is only truncated (and the warning only produced) when
some image dimension is not an exact multiple of its cell stride AND both
computed-minus-actual deltas differ from `spacing`. -/
def sheetEffectiveSize (d : SpriteSheetData) : ℤ × ℤ × Bool :=
  if Int.tmod d.image.width (cellStrideW d) ≠ 0 ∨
      Int.tmod d.image.height (cellStrideH d) ≠ 0 then
    if spriteCountX d * cellStrideW d - d.image.width ≠ d.spacing ∧
        spriteCountY d * cellStrideH d - d.image.height ≠ d.spacing then
      (spriteCountX d * cellStrideW d, spriteCountY d * cellStrideH d, true)
    else (d.image.width, d.image.height, false)
  else (d.image.width, d.image.height, false)

/-- pixel x-origin of frame `i`:
`margin + (spacing + framewidth) * (frame % spritecount.x)`. -/
def frameOffsetX (d : SpriteSheetData) (i : ℤ) : ℤ :=
  d.margin + (d.spacing + d.framewidth) * Int.tmod i (spriteCountX d)

/-- pixel y-origin of frame `i`:
`margin + (spacing + frameheight) * ~~(frame / spritecount.x)`. -/
def frameOffsetY (d : SpriteSheetData) (i : ℤ) : ℤ :=
  d.margin + (d.spacing + d.frameheight) * Int.tdiv i (spriteCountX d)

/-- the region object built for frame `i` of a fixed-grid spritesheet. -/
def sheetFrameRegion (d : SpriteSheetData) (i : ℤ) : Region :=
  { name := toString i
    texture := some "default"
    offsetX := (frameOffsetX d i : ℚ)
    offsetY := (frameOffsetY d i : ℚ)
    width := (d.framewidth : ℚ)
    height := (d.frameheight : ℚ)
    anchorPoint := d.anchorPoint
    trimmed := false
    angle := RegionAngle.zero
    uvs := none }

/-- result of `TextureAtlas.parseFromSpriteSheet`: the dictionary, whether
the truncation warning was logged, the effective sheet size handed to
`addUVs`, and the list of frame names created by the loop. -/
structure SheetParseResult : Type where
  table : AtlasTable
  warned : Bool
  effWidth : ℤ
  effHeight : ℤ
  frameNames : List String
deriving Repr, DecidableEq

/-- models `TextureAtlas.parseFromSpriteSheet(data)`: compute the sprite
counts by integer truncation, possibly truncate the effective size (with a
console warning), then create `spritecount.x * spritecount.y` numbered
regions, invoking `addUVs` with the effective size for each. -/
def parseFromSpriteSheet (glDefined : Bool) (d : SpriteSheetData) :
    SheetParseResult :=
  let eff := sheetEffectiveSize d
  let count : ℤ := spriteCountX d * spriteCountY d
  let idxs : List ℤ := (List.range count.toNat).map Int.ofNat
  let table : AtlasTable :=
    idxs.foldl
      (fun atlas i =>
        (addUVs glDefined (jsSet atlas (toString i) (sheetFrameRegion d i))
            (toString i) (eff.1 : ℚ) (eff.2.1 : ℚ)).table)
      []
  ⟨table, eff.2.2, eff.1, eff.2.1, idxs.map toString⟩

/-- a thrown JavaScript exception: an explicit `new Error(...)` or a runtime
`TypeError` (e.g. property access on `null`/`undefined`). -/
inductive JsErr : Type
  | error (msg : String)
  | typeError (msg : String)
deriving Repr, DecidableEq

/-- the state a `TextureAtlas` instance accumulates during construction. -/
structure TextureAtlasState : Type where
  format : Option String
  sources : List (String × ImageSource)
  atlases : List (String × AtlasTable)
  repeatMode : Option String
deriving Repr, DecidableEq

/-- one raw entry of the constructor's `atlases` argument, before
classification: an arbitrary JS object that may carry packer metadata
and/or spritesheet fields. -/
structure RawAtlas : Type where
  meta : Option PackerMeta
  frames : List FrameDesc
  framewidth : Option ℤ
  frameheight : Option ℤ
  spacing : Option ℤ
  margin : Option ℤ
  anchorPoint : Option (ℚ × ℚ)
  image : Option ImageSource
deriving Repr, DecidableEq

/-- a descriptor carrying no recognizable atlas information at all
(no `meta`, no `framewidth`/`frameheight`). -/
def emptyRawAtlas : RawAtlas :=
  ⟨none, [], none, none, none, none, none, none⟩

/-- models the JavaScript read `this.atlases.length`: a `Map` exposes
`size` but has no `length` property, so the read yields `undefined`
(`none`) whatever the map contains. -/
def jsMapLengthProp {α : Type} ( _entries : List (String × α)) : Option ℤ :=
  none

/-- models the JavaScript strict comparison `v === 0` on a possibly
`undefined` value: `undefined === 0` is `false`. -/
def jsStrictEqIntZero : Option ℤ → Bool
  | some n => n = 0
  | none => false

/-- one iteration of the constructor's `for (let i in atlases)` loop:
classify the descriptor by its metadata, record format/sources, and parse
it into a sub-atlas. `getImage` models the loader lookup used when no
explicit source is supplied; the unmodelled case of storing an `undefined`
source for ShoeBox/melonJS descriptors without `src` is skipped (no claim
exercises it). -/
def constructStep (glDefined : Bool) (getImage : String → Option ImageSource)
    (src : Option ImageSource) (st : TextureAtlasState) (a : RawAtlas) :
    Except JsErr TextureAtlasState :=
  match a.meta with
  | some meta =>
      let afterFormat : Except JsErr TextureAtlasState :=
        if strContains meta.app "texturepacker" ||
            strContains meta.app "free-tex-packer" then
          match src with
          | none =>
              match meta.image with
              | none => Except.error (JsErr.error "Atlas texture 'null' not found")
              | some imgName =>
                  match getImage imgName with
                  | none =>
                      Except.error (JsErr.error "Atlas texture 'null' not found")
                  | some img =>
                      Except.ok
                        { st with
                          format := some "texturepacker"
                          sources := jsSet st.sources imgName img
                          repeatMode := some "no-repeat" }
          | some s =>
              Except.ok
                { st with
                  format := some "texturepacker"
                  sources := jsSet st.sources (meta.image.getD "default") s
                  repeatMode := some "no-repeat" }
        else if strContains meta.app "ShoeBox" then
          if (meta.exporter.map (fun e => strContains e "melonJS")).getD false then
            Except.ok
              { st with
                format := some "ShoeBox"
                repeatMode := some "no-repeat"
                sources :=
                  match src with
                  | some s => jsSet st.sources "default" s
                  | none => st.sources }
          else
            Except.error (JsErr.error
              "ShoeBox requires the JSON exporter : https://github.com/melonjs/melonJS/tree/master/media/shoebox_JSON_export.sbx")
        else if strContains meta.app "melonJS" then
          Except.ok
            { st with
              format := some "melonJS"
              repeatMode := some (meta.repeatMode.getD "no-repeat")
              sources :=
                match src with
                | some s => jsSet st.sources "default" s
                | none => st.sources }
        else
          Except.ok st
      match afterFormat with
      | Except.error e => Except.error e
      | Except.ok st1 =>
          Except.ok
            { st1 with
              atlases :=
                jsSet st1.atlases (meta.image.getD "default")
                  (parse glDefined ⟨meta, a.frames⟩) }
  | none =>
      if a.framewidth.isSome && a.frameheight.isSome then
        match (match src with | some s => some s | none => a.image) with
        | none =>
            Except.error (JsErr.typeError
              "Cannot read properties of undefined (reading 'width')")
        | some img =>
            let d : SpriteSheetData :=
              ⟨img, a.framewidth.getD 0, a.frameheight.getD 0,
                a.spacing.getD 0, a.margin.getD 0, a.anchorPoint⟩
            Except.ok
              { st with
                format := some "Spritesheet (fixed cell size)"
                repeatMode := some "no-repeat"
                atlases :=
                  jsSet st.atlases "default"
                    (parseFromSpriteSheet glDefined d).table
                sources := jsSet st.sources "default" img }
      else Except.ok st

/-- folds `constructStep` over the descriptor list, stopping at the first
thrown exception. -/
def constructAux (glDefined : Bool) (getImage : String → Option ImageSource)
    (src : Option ImageSource) :
    TextureAtlasState → List RawAtlas → Except JsErr TextureAtlasState
  | st, [] => Except.ok st
  | st, a :: rest =>
      match constructStep glDefined getImage src st a with
      | Except.error e => Except.error e
      | Except.ok st1 => constructAux glDefined getImage src st1 rest

/-- models the `TextureAtlas` constructor (caching side effects omitted):
process every descriptor, then run the format check
`if (this.atlases.length === 0) throw ...` — which reads the nonexistent
`length` property of a `Map`. -/
def construct (glDefined : Bool) (getImage : String → Option ImageSource)
    (atlasList : List RawAtlas) (src : Option ImageSource) :
    Except JsErr TextureAtlasState :=
  match constructAux glDefined getImage src ⟨none, [], [], none⟩ atlasList with
  | Except.error e => Except.error e
  | Except.ok st =>
      if jsStrictEqIntZero (jsMapLengthProp st.atlases) then
        Except.error (JsErr.error "texture atlas format not supported")
      else Except.ok st

/-- models `TextureAtlas.getAtlas(name)`: direct `Map` lookup for a string
argument, otherwise the first inserted sub-atlas. -/
def getAtlas (st : TextureAtlasState) (name : Option String) :
    Option AtlasTable :=
  match name with
  | some n => jsGet st.atlases n
  | none => st.atlases.head?.map Prod.snd

/-- models the argument-less `TextureAtlas.getTexture()` use inside
`addRegion`: the first inserted source. -/
def getTexture0 (st : TextureAtlasState) : Option ImageSource :=
  st.sources.head?.map Prod.snd

/-- the `for (let atlas of this.atlases.values())` scan of
`TextureAtlas.getRegion`: first sub-atlas containing the name wins. -/
def scanAtlases : List (String × AtlasTable) → String → Option Region
  | [], _ => none
  | (_, t) :: rest, name =>
      match jsGet t name with
      | some r => some r
      | none => scanAtlases rest name

/-- models `TextureAtlas.getRegion(name, atlas?)`. -/
def getRegion (st : TextureAtlasState) (name : String)
    (atlasName : Option String) : Option Region :=
  match atlasName with
  | some a => (getAtlas st (some a)).bind (fun t => jsGet t name)
  | none => scanAtlases st.atlases name

/-- result of `TextureAtlas.addRegion`. -/
structure AddRegionResult : Type where
  state : TextureAtlasState
  region : Option Region
deriving Repr, DecidableEq

/-- models `TextureAtlas.addRegion(name, x, y, w, h)`: create a bare region
in the first sub-atlas, compute its UVs against the first source texture's
dimensions, and return it. A missing source or sub-atlas (on which JS would
throw) yields `none`; no claim exercises that. -/
def addRegion (glDefined : Bool) (st : TextureAtlasState) (name : String)
    (x y w h : ℚ) : AddRegionResult :=
  match getTexture0 st, st.atlases with
  | some srcImg, (aname, table) :: _ =>
      let r : Region :=
        { name := name
          texture := none
          offsetX := x
          offsetY := y
          width := w
          height := h
          anchorPoint := none
          trimmed := false
          angle := RegionAngle.zero
          uvs := none }
      let table1 := jsSet table name r
      let table2 :=
        (addUVs glDefined table1 name (srcImg.width : ℚ) (srcImg.height : ℚ)).table
      ⟨{ st with atlases := jsSet st.atlases aname table2 }, jsGet table2 name⟩
  | _, _ => ⟨st, none⟩

/-- result of `TextureAtlas.getUVs`: possibly-updated state, the returned
`region.uvs`, and whether the raw-coordinate fallback registered a new
ad-hoc region. -/
structure GetUVsResult : Type where
  state : TextureAtlasState
  uvs : Option (ℚ × ℚ × ℚ × ℚ)
  registeredNew : Bool
deriving Repr, DecidableEq

/-- models `TextureAtlas.getUVs(name)`: return the cached UVs of the first
region found under `name`; otherwise split `name` as a raw `"x,y,w,h"`
string and register an ad-hoc region for it. A component on which the JS
`+` coercion would produce `NaN` is not modelled (no caller produces one). -/
def getUVs (glDefined : Bool) (st : TextureAtlasState) (name : String) :
    GetUVsResult :=
  match getRegion st name none with
  | some r => ⟨st, r.uvs, false⟩
  | none =>
      let keys := splitOnComma name
      match (keys.get? 0).bind jsUnaryPlus, (keys.get? 1).bind jsUnaryPlus,
          (keys.get? 2).bind jsUnaryPlus, (keys.get? 3).bind jsUnaryPlus with
      | some sx, some sy, some sw, some sh =>
          let res := addRegion glDefined st name (sx : ℚ) (sy : ℚ) (sw : ℚ) (sh : ℚ)
          ⟨res.state, res.region.bind Region.uvs, true⟩
      | _, _, _, _ => ⟨st, none, true⟩

/-- a JavaScript value passed to `setUniform`: a number, a plain array, an
object exposing a `toArray()` method (e.g. a matrix), or anything else. -/
inductive JsValue : Type
  | num (q : ℚ)
  | arr (xs : List ℚ)
  | objWithToArray (xs : List ℚ)
  | other
deriving Repr, DecidableEq

/-- the observable state of a `GLShader`: its string conversion (used in the
`setUniform` error message), and the `attributes` / `uniforms` tables,
which `destroy()` sets to `null` (`none`). The GL program handle and the
shader sources are not modelled. -/
structure GLShaderModel : Type where
  strRepr : String
  attributes : Option (List (String × ℤ))
  uniforms : Option (List (String × JsValue))
deriving Repr, DecidableEq

/-- models `GLShader.getAttribLocation(name)`: the recorded location if the
name is a key of `this.attributes`, `-1` otherwise; reading
`this.attributes[name]` after `destroy()` nulled the table throws a
`TypeError`. -/
def getAttribLocation (sh : GLShaderModel) (name : String) : Except JsErr ℤ :=
  match sh.attributes with
  | none =>
      Except.error (JsErr.typeError
        ("Cannot read properties of null (reading '" ++ name ++ "')"))
  | some attrs =>
      match jsGet attrs name with
      | some attr => Except.ok attr
      | none => Except.ok (-1)

/-- models the value conversion in `setUniform`:
`typeof value === "object" && typeof value.toArray === "function"` calls
`value.toArray()`, everything else is stored as-is. -/
def jsToUniformValue : JsValue → JsValue
  | JsValue.objWithToArray xs => JsValue.arr xs
  | v => v

/-- models `GLShader.setUniform(name, value)`: store the (converted) value
when `name` is a key of `this.uniforms`, otherwise throw
`new Error("undefined (" + name + ") uniform for shader " + this)`. -/
def setUniform (sh : GLShaderModel) (name : String) (v : JsValue) :
    Except JsErr GLShaderModel :=
  match sh.uniforms with
  | none =>
      Except.error (JsErr.typeError
        ("Cannot read properties of null (reading '" ++ name ++ "')"))
  | some us =>
      match jsGet us name with
      | some _ =>
          Except.ok { sh with uniforms := some (jsSet us name (jsToUniformValue v)) }
      | none =>
          Except.error (JsErr.error
            ("undefined (" ++ name ++ ") uniform for shader " ++ sh.strRepr))

/-- models `GLShader.destroy()` (GL program deletion omitted): the
`uniforms` and `attributes` tables are nulled. -/
def destroy (sh : GLShaderModel) : GLShaderModel :=
  { sh with uniforms := none, attributes := none }

/-! Concrete example inputs used by witnesses and counterexamples. -/

/-- a live shader with one attribute and one uniform. -/
def exShaderLive : GLShaderModel :=
  ⟨"[object Object]", some [("aVertexPosition", 3)],
    some [("uProjectionMatrix", JsValue.arr [1, 0, 0, 1])]⟩

/-- region stored in the first sub-atlas of `exMultipack`. -/
def exRegionFirst : Region :=
  ⟨"duplicate.png", some "sheet-0", 0, 0, 16, 16, none, false,
    RegionAngle.zero, none⟩

/-- region of the same name stored in the second sub-atlas of `exMultipack`. -/
def exRegionSecond : Region :=
  ⟨"duplicate.png", some "sheet-1", 32, 0, 16, 16, none, false,
    RegionAngle.zero, none⟩

/-- region with a different name, filling the leading sub-atlas of
`exMultipack`. -/
def exRegionOther : Region :=
  ⟨"other.png", some "sheet-x", 48, 0, 8, 8, none, false,
    RegionAngle.zero, none⟩

/-- a multipack atlas state whose second and third sub-atlases both contain
a region named `"duplicate.png"`. -/
def exMultipack : TextureAtlasState :=
  ⟨some "texturepacker", [("sheet-x", ⟨64, 64, "x.png"⟩)],
    [("sheet-x", [("other.png", exRegionOther)]),
     ("sheet-0", [("duplicate.png", exRegionFirst)]),
     ("sheet-1", [("duplicate.png", exRegionSecond)])],
    some "no-repeat"⟩

/-- region used by the `addUVs` idempotence/round-trip witnesses. -/
def exRegionHero : Region :=
  ⟨"hero", some "default", 4, 6, 10, 20, none, false, RegionAngle.zero, none⟩

/-- single-region table used by the `addUVs` witnesses. -/
def exHeroTable : AtlasTable := [("hero", exRegionHero)]

/-- metadata of a ShoeBox-style export (whose JSON contains a trailing
dummy frame object). -/
def exPackerMeta : PackerMeta :=
  ⟨"ShoeBox", none, 64, 64, some "melonJS", none⟩

/-- a well-formed frame entry. -/
def exFrameA : FrameDesc :=
  ⟨some "a.png", ⟨0, 0, 16, 16⟩, false, false, none, none, none⟩

/-- a trailing dummy object lacking the `filename` property. -/
def exFrameDummy : FrameDesc :=
  ⟨none, ⟨0, 0, 0, 0⟩, false, false, none, none, none⟩

/-- a packer descriptor with a dummy trailing frame entry. -/
def exPackerData : PackerData := ⟨exPackerMeta, [exFrameA, exFrameDummy]⟩

/-- the `meta` of the spec's TexturePacker scenario (sheet size 20×10). -/
def c4Meta : PackerMeta := ⟨"texturepacker", none, 20, 10, none, none⟩

/-- frame `a.png` at `{x:0,y:0,w:10,h:10}`. -/
def c4FrameA : FrameDesc :=
  ⟨some "a.png", ⟨0, 0, 10, 10⟩, false, false, none, none, none⟩

/-- frame `b.png` at `{x:10,y:0,w:10,h:10}`. -/
def c4FrameB : FrameDesc :=
  ⟨some "b.png", ⟨10, 0, 10, 10⟩, false, false, none, none, none⟩

/-- the raw constructor argument of the TexturePacker scenario. -/
def c4Raw : RawAtlas :=
  ⟨some c4Meta, [c4FrameA, c4FrameB], none, none, none, none, none, none⟩

/-- the 20×10 source image of the TexturePacker scenario. -/
def c4Img : ImageSource := ⟨20, 10, "texture.png"⟩

/-- the region `parse` builds for `a.png` before UV computation. -/
def c4RegionA : Region :=
  ⟨"a.png", some "default", 0, 0, 10, 10, none, false, RegionAngle.zero, none⟩

/-- the region `parse` builds for `b.png` before UV computation. -/
def c4RegionB : Region :=
  ⟨"b.png", some "default", 10, 0, 10, 10, none, false, RegionAngle.zero, none⟩

/-- the state the constructor produces for the TexturePacker scenario. -/
def c4State : TextureAtlasState :=
  ⟨some "texturepacker", [("default", c4Img)],
    [("default", parse true ⟨c4Meta, [c4FrameA, c4FrameB]⟩)],
    some "no-repeat"⟩

/-- a 10×10 region at the origin of a 20×10 sheet, for the synthetic-key
counterexample. -/
def c6Region : Region :=
  ⟨"a.png", some "default", 0, 0, 10, 10, none, false, RegionAngle.zero, none⟩

/-- the single-region table the counterexample feeds to `addUVs`. -/
def c6Table : AtlasTable := [("a.png", c6Region)]

/-- the 20×10 source image for the synthetic-key counterexample. -/
def c6Img : ImageSource := ⟨20, 10, "texture.png"⟩

/-- an atlas state holding the `addUVs` output table for `c6Region`. -/
def c6State : TextureAtlasState :=
  ⟨some "texturepacker", [("default", c6Img)],
    [("default", (addUVs true c6Table "a.png" 20 10).table)],
    some "no-repeat"⟩

/-- a 10×10 spritesheet with 10×10 cells and spacing 2: the width is not a
multiple of the stride 12, yet the computed-minus-actual delta equals the
spacing, so the source neither truncates nor warns. -/
def c1Sheet : SpriteSheetData := ⟨⟨10, 10, "sheet.png"⟩, 10, 10, 2, 0, none⟩

/-- a 25×12 spritesheet with 10×10 cells and no spacing: both deltas differ
from the spacing, so the source truncates to 20×10 and warns. -/
def c1TruncSheet : SpriteSheetData := ⟨⟨25, 12, "sheet2.png"⟩, 10, 10, 0, 0, none⟩

theorem jsGet_jsSet_self {α : Type} (t : List (String × α)) (k : String)
    (v : α) : jsGet (jsSet t k v) k = some v := by
  induction t with
  | nil => simp [jsSet, jsGet]
  | cons hd tl ih =>
      obtain ⟨k0, v0⟩ := hd
      by_cases h : k0 = k
      · simp [jsSet, jsGet, h]
      · simp [jsSet, jsGet, h, ih]

theorem jsGet_jsSet_of_ne {α : Type} (t : List (String × α)) {k k1 : String}
    (v : α) (h : k1 ≠ k) : jsGet (jsSet t k v) k1 = jsGet t k1 := by
  induction t with
  | nil => simp [jsSet, jsGet, Ne.symm h]
  | cons hd tl ih =>
      obtain ⟨k0, v0⟩ := hd
      by_cases h0 : k0 = k
      · subst h0
        simp [jsSet, jsGet, Ne.symm h]
      · by_cases h1 : k0 = k1
        · subst h1
          simp [jsSet, jsGet, h0]
        · simp [jsSet, jsGet, h0, h1, ih]

theorem jsGet_jsSet_isSome {α : Type} (t : List (String × α)) {k : String}
    (k1 : String) (v : α) (h : (jsGet t k).isSome) :
    (jsGet (jsSet t k1 v) k).isSome := by
  by_cases hk : k = k1
  · subst hk
    simp [jsGet_jsSet_self]
  · rwa [jsGet_jsSet_of_ne t v hk]

theorem addUVs_preserves_isSome (glDefined : Bool) (t : AtlasTable)
    (name : String) (w h : ℚ) {k : String} (hs : (jsGet t k).isSome) :
    (jsGet (addUVs glDefined t name w h).table k).isSome := by
  cases glDefined with
  | false => simpa [addUVs] using hs
  | true =>
      cases hname : jsGet t name with
      | none => simpa [addUVs, hname] using hs
      | some r =>
          simp only [addUVs, hname]
          exact jsGet_jsSet_isSome _ _ _ (jsGet_jsSet_isSome _ _ _ hs)

/-- C5: `getRegion` without an atlas argument scans the sub-atlases in
insertion order and returns the region from the first one containing the
name, regardless of what any later sub-atlas holds. -/
theorem getRegion_returns_first_match_in_insertion_order
    (st : TextureAtlasState) (pre post : List (String × AtlasTable))
    (aname : String) (table : AtlasTable) (name : String) (r : Region)
    (hsplit : st.atlases = pre ++ (aname, table) :: post)
    (hpre : ∀ p ∈ pre, jsGet p.2 name = none)
    (hr : jsGet table name = some r) :
    getRegion st name none = some r := by
  have : ∀ l : List (String × AtlasTable), (∀ p ∈ l, jsGet p.2 name = none) →
      scanAtlases (l ++ (aname, table) :: post) name = some r := by
    intro l
    induction l with
    | nil => intro _; simp [scanAtlases, hr]
    | cons p ps ih =>
        intro hl
        obtain ⟨pn, pt⟩ := p
        have h1 : jsGet pt name = none := hl ⟨pn, pt⟩ (List.mem_cons_self _ _)
        simpa [scanAtlases, h1] using ih fun q hq => hl q (List.mem_cons_of_mem _ hq)
  simpa [getRegion, hsplit] using this pre hpre

/-- C5 witness: in `exMultipack` the name `"duplicate.png"` occurs in both
the second and the third sub-atlas; the lookup returns the region of the
second (the first containing the name). -/
theorem getRegion_returns_first_match_witness :
    getRegion exMultipack "duplicate.png" none = some exRegionFirst :=
  getRegion_returns_first_match_in_insertion_order exMultipack
    [("sheet-x", [("other.png", exRegionOther)])]
    [("sheet-1", [("duplicate.png", exRegionSecond)])]
    "sheet-0" [("duplicate.png", exRegionFirst)] "duplicate.png"
    exRegionFirst rfl
    (by intro p hp; simp at hp; subst hp; rfl) rfl

/-- C9 counterexample: after `destroy()` has nulled `this.attributes`,
`getAttribLocation` does not return a sentinel — the property read on
`null` throws a `TypeError`, refuting the claim's "never throws, including
after destroy()". -/
theorem getAttribLocation_throws_after_destroy :
    getAttribLocation (destroy exShaderLive) "aVertexPosition" =
      Except.error (JsErr.typeError
        "Cannot read properties of null (reading 'aVertexPosition')") := rfl

/-- C9 amended: for every shader whose `attributes` table has not been
nulled by `destroy()`, `getAttribLocation` never throws: it returns the
recorded location when the name is a key of the table and the sentinel `-1`
otherwise. -/
theorem getAttribLocation_total_unless_destroyed (sh : GLShaderModel)
    (attrs : List (String × ℤ)) (name : String)
    (h : sh.attributes = some attrs) :
    (∀ loc, jsGet attrs name = some loc →
      getAttribLocation sh name = Except.ok loc) ∧
    (jsGet attrs name = none → getAttribLocation sh name = Except.ok (-1)) := by
  constructor
  · intro loc hloc
    simp [getAttribLocation, h, hloc]
  · intro hnone
    simp [getAttribLocation, h, hnone]

/-- C9 amended witness: on the live example shader the known attribute
resolves to its location and an unknown one to `-1`. -/
theorem getAttribLocation_total_witness :
    getAttribLocation exShaderLive "aVertexPosition" = Except.ok 3 ∧
    getAttribLocation exShaderLive "aColor" = Except.ok (-1) :=
  ⟨(getAttribLocation_total_unless_destroyed exShaderLive _ "aVertexPosition"
      rfl).1 3 rfl,
   (getAttribLocation_total_unless_destroyed exShaderLive _ "aColor"
      rfl).2 rfl⟩

/-- C3: on a shader whose uniform table is intact, `setUniform` with a name
absent from the table throws an error whose message contains both the
uniform name and the shader's string conversion, and with a present name it
stores the value (an object exposing `toArray` is converted through it)
without failing. -/
theorem setUniform_unknown_name_fails_known_name_stores
    (sh : GLShaderModel) (us : List (String × JsValue)) (name : String)
    (v : JsValue) (h : sh.uniforms = some us) :
    (jsGet us name = none →
      ∃ msg, setUniform sh name v = Except.error (JsErr.error msg) ∧
        (∃ p q, msg = p ++ name ++ q) ∧
        (∃ p q, msg = p ++ sh.strRepr ++ q)) ∧
    (∀ w, jsGet us name = some w →
      setUniform sh name v =
        Except.ok { sh with uniforms := some (jsSet us name (jsToUniformValue v)) }) := by
  constructor
  · intro hnone
    refine ⟨"undefined (" ++ name ++ ") uniform for shader " ++ sh.strRepr,
      by simp [setUniform, h, hnone], ⟨"undefined (",
        ") uniform for shader " ++ sh.strRepr, ?_⟩,
      ⟨"undefined (" ++ name ++ ") uniform for shader ", "", ?_⟩⟩
    · simp [String.append_assoc]
    · simp
  · intro w hw
    simp [setUniform, h, hw]

/-- C3 witness: on the live example shader, `setUniform` with the unknown
name `"uColor"` fails with a message naming it, and with the known name
`"uProjectionMatrix"` stores the `toArray()` conversion of a matrix-like
value. -/
theorem setUniform_witness :
    (∃ msg, setUniform exShaderLive "uColor" (JsValue.num 1) =
        Except.error (JsErr.error msg) ∧
      (∃ p q, msg = p ++ "uColor" ++ q) ∧
      (∃ p q, msg = p ++ exShaderLive.strRepr ++ q)) ∧
    setUniform exShaderLive "uProjectionMatrix"
        (JsValue.objWithToArray [2, 0, 0, 2]) =
      Except.ok { exShaderLive with
        uniforms := some [("uProjectionMatrix", JsValue.arr [2, 0, 0, 2])] } :=
  ⟨(setUniform_unknown_name_fails_known_name_stores exShaderLive _ "uColor"
      (JsValue.num 1) rfl).1 rfl,
   (setUniform_unknown_name_fails_known_name_stores exShaderLive _
      "uProjectionMatrix" (JsValue.objWithToArray [2, 0, 0, 2]) rfl).2
      (JsValue.arr [1, 0, 0, 1]) rfl⟩

theorem parseStep_filename_none (glDefined : Bool) (meta : PackerMeta)
    (atlas : AtlasTable) (f : FrameDesc) (h : f.filename = none) :
    parseStep glDefined meta atlas f = atlas := by
  simp [parseStep, h]

theorem parse_foldl_filter (glDefined : Bool) (meta : PackerMeta)
    (fs : List FrameDesc) :
    ∀ atlas : AtlasTable, fs.foldl (parseStep glDefined meta) atlas =
      (fs.filter (fun f => f.filename.isSome)).foldl
        (parseStep glDefined meta) atlas := by
  induction fs with
  | nil => intro _; rfl
  | cons f rest ih =>
      intro atlas
      cases hf : f.filename with
      | none =>
          rw [List.foldl_cons, parseStep_filename_none _ _ _ _ hf,
            List.filter_cons_of_neg (by simp [hf])]
          exact ih atlas
      | some fname =>
          rw [List.foldl_cons, List.filter_cons_of_pos (by simp [hf]),
            List.foldl_cons]
          exact ih _

theorem parseStep_preserves_isSome (glDefined : Bool) (meta : PackerMeta)
    (atlas : AtlasTable) (f : FrameDesc) {k : String}
    (h : (jsGet atlas k).isSome) :
    (jsGet (parseStep glDefined meta atlas f) k).isSome := by
  cases hf : f.filename with
  | none => simpa [parseStep, hf] using h
  | some fname =>
      simp only [parseStep, hf]
      exact addUVs_preserves_isSome _ _ _ _ _ (jsGet_jsSet_isSome _ _ _ h)

theorem foldl_parseStep_preserves_isSome (glDefined : Bool)
    (meta : PackerMeta) (fs : List FrameDesc) {k : String} :
    ∀ atlas : AtlasTable, (jsGet atlas k).isSome →
      (jsGet (fs.foldl (parseStep glDefined meta) atlas) k).isSome := by
  induction fs with
  | nil => intro _ h; exact h
  | cons f rest ih =>
      intro atlas h
      rw [List.foldl_cons]
      exact ih _ (parseStep_preserves_isSome _ _ _ _ h)

/-- C10: `parse` builds exactly the regions of the frame entries that carry
a `filename` property — dropping the entries without one changes nothing
(they are skipped silently, with no error), and every entry with a
`filename` still yields a region under that name. -/
theorem parse_creates_regions_exactly_for_filename_entries (glDefined : Bool)
    (d : PackerData) :
    parse glDefined d =
      parse glDefined ⟨d.meta, d.frames.filter (fun f => f.filename.isSome)⟩ ∧
    ∀ f ∈ d.frames, ∀ fname, f.filename = some fname →
      (jsGet (parse glDefined d) fname).isSome := by
  constructor
  · simpa [parse] using parse_foldl_filter glDefined d.meta d.frames []
  · intro f hf fname hname
    obtain ⟨l1, l2, hsplit⟩ := List.append_of_mem hf
    unfold parse
    rw [hsplit, List.foldl_append, List.foldl_cons]
    apply foldl_parseStep_preserves_isSome
    simp only [parseStep, hname]
    apply addUVs_preserves_isSome
    rw [jsGet_jsSet_self]
    rfl

/-- C10 witness: on a descriptor with a ShoeBox-style trailing dummy entry,
parsing equals parsing the filtered frame list, and the named entry is
still present. -/
theorem parse_skips_dummy_entry_witness :
    parse true exPackerData =
      parse true ⟨exPackerData.meta,
        exPackerData.frames.filter (fun f => f.filename.isSome)⟩ ∧
    (jsGet (parse true exPackerData) "a.png").isSome :=
  ⟨(parse_creates_regions_exactly_for_filename_entries true exPackerData).1,
   (parse_creates_regions_exactly_for_filename_entries true exPackerData).2
     exFrameA (List.mem_cons_self _ _) "a.png" rfl⟩

/-- C7: `addUVs` is idempotent — invoking it a second time on the same
region with the same sheet dimensions returns exactly the same UV
quadruple. -/
theorem addUVs_idempotent (glDefined : Bool) (t : AtlasTable) (name : String)
    (w h : ℚ) (r : Region) (hr : jsGet t name = some r) :
    (addUVs glDefined (addUVs glDefined t name w h).table name w h).uvs =
      (addUVs glDefined t name w h).uvs := by
  cases glDefined with
  | false => simp [addUVs]
  | true =>
      have hstep : addUVs true t name w h =
          ⟨jsSet (jsSet t name { r with uvs := some (regionUV r w h) })
              (regionKey r w h) { r with uvs := some (regionUV r w h) },
            some (regionUV r w h)⟩ := by
        simp [addUVs, hr]
      have hlook :
          jsGet (jsSet (jsSet t name { r with uvs := some (regionUV r w h) })
              (regionKey r w h) { r with uvs := some (regionUV r w h) })
            name = some { r with uvs := some (regionUV r w h) } := by
        by_cases hk : name = regionKey r w h
        · rw [hk, jsGet_jsSet_self]
        · rw [jsGet_jsSet_of_ne _ _ hk, jsGet_jsSet_self]
      rw [hstep]
      simp only [addUVs, hlook, if_true]
      simp [regionUV]

/-- C7 witness: the second `addUVs` call on the example region returns the
same UV array as the first. -/
theorem addUVs_idempotent_witness :
    (addUVs true (addUVs true exHeroTable "hero" 32 64).table
        "hero" 32 64).uvs =
      (addUVs true exHeroTable "hero" 32 64).uvs :=
  addUVs_idempotent true exHeroTable "hero" 32 64 exRegionHero rfl

/-- C8: scaling a region's computed UV rectangle back by the sheet
dimensions reproduces its pixel offset and size exactly (the model computes
in ℚ, so the float-tolerance of the claim becomes exact equality). -/
theorem addUVs_roundtrip (t : AtlasTable) (name : String) (w h : ℚ)
    (r : Region) (u0 v0 u1 v1 : ℚ) (hr : jsGet t name = some r)
    (hw : w ≠ 0) (hh : h ≠ 0)
    (huv : (addUVs true t name w h).uvs = some (u0, v0, u1, v1)) :
    u0 * w = r.offsetX ∧ v0 * h = r.offsetY ∧
    (u1 - u0) * w = r.width ∧ (v1 - v0) * h = r.height := by
  have huv2 : some (r.offsetX / w, r.offsetY / h, (r.offsetX + r.width) / w,
      (r.offsetY + r.height) / h) = some (u0, v0, u1, v1) := by
    rw [← huv]
    simp [addUVs, hr, regionUV]
  simp only [Option.some.injEq, Prod.mk.injEq] at huv2
  obtain ⟨e0, e1, e2, e3⟩ := huv2
  refine ⟨?_, ?_, ?_, ?_⟩
  · rw [← e0]
    field_simp
  · rw [← e1]
    field_simp
  · rw [← e2, ← e0]
    field_simp
  · rw [← e3, ← e1]
    field_simp

/-- C8 witness: the example region at offset `(4,6)`, size `10×20` on a
`32×64` sheet round-trips exactly. -/
theorem addUVs_roundtrip_witness :
    (4 : ℚ) / 32 * 32 = exRegionHero.offsetX ∧
    (6 : ℚ) / 64 * 64 = exRegionHero.offsetY ∧
    (((4 : ℚ) + 10) / 32 - (4 : ℚ) / 32) * 32 = exRegionHero.width ∧
    (((6 : ℚ) + 20) / 64 - (6 : ℚ) / 64) * 64 = exRegionHero.height :=
  addUVs_roundtrip exHeroTable "hero" 32 64 exRegionHero
    ((4 : ℚ) / 32) ((6 : ℚ) / 64) (((4 : ℚ) + 10) / 32) (((6 : ℚ) + 20) / 64)
    rfl (by norm_num) (by norm_num) rfl

/-- C2 (code bug): constructing from a descriptor that matches no supported
atlas format completes silently with an empty atlas table instead of
throwing, because the final check reads `this.atlases.length` — a `Map` has
`size`, not `length` — so the guard compares `undefined === 0`, which is
never true. -/
theorem construct_unsupported_format_completes_silently :
    construct true (fun _ => none) [emptyRawAtlas] none =
      Except.ok ⟨none, [], [], none⟩ ∧
    jsStrictEqIntZero (jsMapLengthProp ([] : List (String × AtlasTable))) =
      false :=
  ⟨rfl, rfl⟩

/-- C4: constructing from the TexturePacker descriptor with frames `a.png`
at `(0,0,10,10)` and `b.png` at `(10,0,10,10)` on a 20×10 sheet yields
`getUVs("a.png") = [0,0,0.5,1]` and `getUVs("b.png") = [0.5,0,1,1]`. -/
theorem texturepacker_scenario_uvs :
    (construct true (fun _ => none) [c4Raw] (some c4Img)).map
        (fun st => ((getUVs true st "a.png").uvs, (getUVs true st "b.png").uvs)) =
      Except.ok (some (0, 0, 1/2, 1), some (1/2, 0, 1, 1)) := by
  have h1 : construct true (fun _ => none) [c4Raw] (some c4Img) =
      Except.ok c4State := rfl
  have h2 : (getUVs true c4State "a.png").uvs =
      some (regionUV c4RegionA 20 10) := rfl
  have h3 : (getUVs true c4State "b.png").uvs =
      some (regionUV c4RegionB 20 10) := rfl
  rw [h1]
  simp only [Except.map, h2, h3]
  norm_num [regionUV, c4RegionA, c4RegionB]

/-- C6 counterexample: the synthetic key `addUVs` registers is built from
the region's offset and the SHEET dimensions, not the region's size — for
a 10×10 region at the origin of a 20×10 sheet, the key `"0,0,10,10"` of
the claim is absent (the table holds `"0,0,20,10"` instead), and a
`getUVs("0,0,10,10")` call therefore registers a new ad-hoc region. -/
theorem addUVs_raw_key_not_region_size :
    jsGet (addUVs true c6Table "a.png" 20 10).table "0,0,10,10" = none ∧
    jsGet (addUVs true c6Table "a.png" 20 10).table "0,0,20,10" =
      some { c6Region with uvs := some (regionUV c6Region 20 10) } ∧
    (getUVs true c6State "0,0,10,10").registeredNew = true :=
  ⟨rfl, rfl, rfl⟩

/-- C6 amended: `addUVs` indexes the region under the synthetic key
`"x,y,W,H"` built from the region's pixel offset and the sheet dimensions
passed to `addUVs`; a subsequent `getUVs` call with that exact string
returns the region's cached UV array without registering a new ad-hoc
region. -/
theorem addUVs_synthetic_sheet_key_cached (t : AtlasTable) (name : String)
    (r : Region) (w h : ℚ) (aname : String) (st : TextureAtlasState)
    (hr : jsGet t name = some r)
    (hst : st.atlases = [(aname, (addUVs true t name w h).table)]) :
    (jsGet (addUVs true t name w h).table (regionKey r w h)).bind Region.uvs =
      (addUVs true t name w h).uvs ∧
    (getUVs true st (regionKey r w h)).uvs = (addUVs true t name w h).uvs ∧
    (getUVs true st (regionKey r w h)).registeredNew = false := by
  have hstep : addUVs true t name w h =
      ⟨jsSet (jsSet t name { r with uvs := some (regionUV r w h) })
          (regionKey r w h) { r with uvs := some (regionUV r w h) },
        some (regionUV r w h)⟩ := by
    simp [addUVs, hr]
  have hkey : jsGet (addUVs true t name w h).table (regionKey r w h) =
      some { r with uvs := some (regionUV r w h) } := by
    rw [hstep]
    exact jsGet_jsSet_self _ _ _
  have hreg : getRegion st (regionKey r w h) none =
      some { r with uvs := some (regionUV r w h) } := by
    simp only [getRegion, hst, scanAtlases, hkey]
  refine ⟨?_, ?_, ?_⟩
  · rw [hkey, hstep]
    rfl
  · simp only [getUVs, hreg]
    rw [hstep]
  · simp only [getUVs, hreg]

/-- C6 amended witness: the example region's synthetic key (offset plus
sheet dimensions) returns the cached UVs through `getUVs` without a new
registration. -/
theorem addUVs_synthetic_sheet_key_cached_witness :
    (jsGet (addUVs true c6Table "a.png" 20 10).table
        (regionKey c6Region 20 10)).bind Region.uvs =
      (addUVs true c6Table "a.png" 20 10).uvs ∧
    (getUVs true c6State (regionKey c6Region 20 10)).uvs =
      (addUVs true c6Table "a.png" 20 10).uvs ∧
    (getUVs true c6State (regionKey c6Region 20 10)).registeredNew = false :=
  addUVs_synthetic_sheet_key_cached c6Table "a.png" c6Region 20 10
    "default" c6State rfl rfl

/-- C1 counterexample: for the 10×10 sheet with stride 12 the image width
is NOT an exact multiple of the cell stride, yet no warning is produced and
one region is created — not the `floor(effectiveWidth/cellStride) *
floor(effectiveHeight/cellStride) = 0` the claim demands — because the
computed-minus-actual delta equals the spacing, a boundary case in which
the source skips truncation. -/
theorem parseFromSpriteSheet_no_warning_counterexample :
    Int.tmod c1Sheet.image.width (cellStrideW c1Sheet) ≠ 0 ∧
    (parseFromSpriteSheet true c1Sheet).warned = false ∧
    (parseFromSpriteSheet true c1Sheet).frameNames.length = 1 ∧
    (Int.tdiv (parseFromSpriteSheet true c1Sheet).effWidth (cellStrideW c1Sheet) *
      Int.tdiv (parseFromSpriteSheet true c1Sheet).effHeight
        (cellStrideH c1Sheet)).toNat = 0 :=
  ⟨by decide, rfl, rfl, rfl⟩

/-- C1 amended: when some image dimension is not an exact multiple of its
cell stride AND both computed-minus-actual deltas differ from the spacing,
`parseFromSpriteSheet` warns, truncates the effective size to the
whole-cell-aligned `spritecount * stride`, creates exactly
`floor(effectiveWidth/cellStride) * floor(effectiveHeight/cellStride)`
regions, and (provided the margin does not exceed the spacing) no created
frame extends beyond the truncated area. -/
theorem parseFromSpriteSheet_truncation_amended (glDefined : Bool)
    (d : SpriteSheetData)
    (hsw : 0 < cellStrideW d) (hsh : 0 < cellStrideH d)
    (hnx : 0 ≤ d.image.width - d.margin + d.spacing)
    (hny : 0 ≤ d.image.height - d.margin + d.spacing)
    (hmod : Int.tmod d.image.width (cellStrideW d) ≠ 0 ∨
      Int.tmod d.image.height (cellStrideH d) ≠ 0)
    (hdw : spriteCountX d * cellStrideW d - d.image.width ≠ d.spacing)
    (hdh : spriteCountY d * cellStrideH d - d.image.height ≠ d.spacing)
    (hm : d.margin ≤ d.spacing) :
    (parseFromSpriteSheet glDefined d).warned = true ∧
    (parseFromSpriteSheet glDefined d).effWidth =
      spriteCountX d * cellStrideW d ∧
    (parseFromSpriteSheet glDefined d).effHeight =
      spriteCountY d * cellStrideH d ∧
    (parseFromSpriteSheet glDefined d).frameNames.length =
      (Int.tdiv (parseFromSpriteSheet glDefined d).effWidth (cellStrideW d) *
        Int.tdiv (parseFromSpriteSheet glDefined d).effHeight
          (cellStrideH d)).toNat ∧
    ∀ i : ℤ, 0 ≤ i → i < spriteCountX d * spriteCountY d →
      frameOffsetX d i + d.framewidth ≤
        (parseFromSpriteSheet glDefined d).effWidth ∧
      frameOffsetY d i + d.frameheight ≤
        (parseFromSpriteSheet glDefined d).effHeight := by
  have heff : sheetEffectiveSize d =
      (spriteCountX d * cellStrideW d, spriteCountY d * cellStrideH d, true) := by
    unfold sheetEffectiveSize
    rw [if_pos hmod, if_pos (And.intro hdw hdh)]
  have hw : (parseFromSpriteSheet glDefined d).warned =
      (sheetEffectiveSize d).2.2 := rfl
  have he1 : (parseFromSpriteSheet glDefined d).effWidth =
      (sheetEffectiveSize d).1 := rfl
  have he2 : (parseFromSpriteSheet glDefined d).effHeight =
      (sheetEffectiveSize d).2.1 := rfl
  have hn : (parseFromSpriteSheet glDefined d).frameNames =
      ((List.range (spriteCountX d * spriteCountY d).toNat).map
        Int.ofNat).map toString := rfl
  have hswq : (0 : ℤ) ≤ d.framewidth + d.spacing := le_of_lt hsw
  have hshq : (0 : ℤ) ≤ d.frameheight + d.spacing := le_of_lt hsh
  have hW : (parseFromSpriteSheet glDefined d).effWidth =
      spriteCountX d * cellStrideW d := by rw [he1, heff]
  have hH : (parseFromSpriteSheet glDefined d).effHeight =
      spriteCountY d * cellStrideH d := by rw [he2, heff]
  refine ⟨?_, hW, hH, ?_, ?_⟩
  · rw [hw, heff]
  · rw [hn, hW, hH]
    rw [List.length_map, List.length_map, List.length_range]
    rw [Int.mul_tdiv_cancel _ (ne_of_gt hsw), Int.mul_tdiv_cancel _ (ne_of_gt hsh)]
  · intro i hi0 hi1
    have hscx0 : 0 ≤ spriteCountX d := Int.tdiv_nonneg hnx (le_of_lt hsw)
    have hscy0 : 0 ≤ spriteCountY d := Int.tdiv_nonneg hny (le_of_lt hsh)
    have hpos : 0 < spriteCountX d * spriteCountY d := lt_of_le_of_lt hi0 hi1
    obtain ⟨hscx, hscy⟩ : 0 < spriteCountX d ∧ 0 < spriteCountY d := by
      rcases mul_pos_iff.mp hpos with h | h
      · exact h
      · exact absurd h.1 (not_lt.mpr hscx0)
    constructor
    · have hmodeq : Int.tmod i (spriteCountX d) = i % spriteCountX d :=
        Int.tmod_eq_emod hi0 (le_of_lt hscx)
      have ht0 : 0 ≤ i % spriteCountX d := Int.emod_nonneg i (ne_of_gt hscx)
      have ht1 : i % spriteCountX d < spriteCountX d := Int.emod_lt_of_pos i hscx
      rw [hW]
      unfold frameOffsetX
      rw [hmodeq]
      have hmul : (d.spacing + d.framewidth) * (i % spriteCountX d) ≤
          (d.spacing + d.framewidth) * (spriteCountX d - 1) :=
        mul_le_mul_of_nonneg_left (by omega) (by linarith [hswq])
      have hcw : cellStrideW d = d.framewidth + d.spacing := rfl
      rw [hcw]
      nlinarith [hmul, hm]
    · have hdivq : Int.tdiv i (spriteCountX d) = i / spriteCountX d :=
        Int.tdiv_eq_ediv hi0 (le_of_lt hscx)
      have hq0 : 0 ≤ i / spriteCountX d :=
        Int.ediv_nonneg hi0 (le_of_lt hscx)
      have hq1 : i / spriteCountX d < spriteCountY d :=
        (Int.ediv_lt_iff_lt_mul hscx).mpr (by rw [mul_comm]; exact hi1)
      rw [hH]
      unfold frameOffsetY
      rw [hdivq]
      have hmul : (d.spacing + d.frameheight) * (i / spriteCountX d) ≤
          (d.spacing + d.frameheight) * (spriteCountY d - 1) :=
        mul_le_mul_of_nonneg_left (by omega) (by linarith [hshq])
      have hch : cellStrideH d = d.frameheight + d.spacing := rfl
      rw [hch]
      nlinarith [hmul, hm]

/-- C1 amended witness: the 25×12 sheet with 10×10 cells and zero spacing
warns, truncates to 20×10, and creates `2 * 1` regions, with frame `1`
inside the truncated area. -/
theorem parseFromSpriteSheet_truncation_amended_witness :
    (parseFromSpriteSheet true c1TruncSheet).warned = true ∧
    (parseFromSpriteSheet true c1TruncSheet).effWidth =
      spriteCountX c1TruncSheet * cellStrideW c1TruncSheet ∧
    (parseFromSpriteSheet true c1TruncSheet).effHeight =
      spriteCountY c1TruncSheet * cellStrideH c1TruncSheet ∧
    (parseFromSpriteSheet true c1TruncSheet).frameNames.length =
      (Int.tdiv (parseFromSpriteSheet true c1TruncSheet).effWidth
          (cellStrideW c1TruncSheet) *
        Int.tdiv (parseFromSpriteSheet true c1TruncSheet).effHeight
          (cellStrideH c1TruncSheet)).toNat ∧
    (frameOffsetX c1TruncSheet 1 + c1TruncSheet.framewidth ≤
        (parseFromSpriteSheet true c1TruncSheet).effWidth ∧
      frameOffsetY c1TruncSheet 1 + c1TruncSheet.frameheight ≤
        (parseFromSpriteSheet true c1TruncSheet).effHeight) := by
  have h := parseFromSpriteSheet_truncation_amended true c1TruncSheet
    (by decide) (by decide) (by decide) (by decide) (by decide) (by decide)
    (by decide) (by decide)
  exact ⟨h.1, h.2.1, h.2.2.1, h.2.2.2.1, h.2.2.2.2 1 (by decide) (by decide)⟩

end MelonJS
